import Mathlib

/-!
Verification of the frame-sequence-to-video conversion script
(render_video.py) against its specification.

The script is a straight-line Python program: it builds a few strings,
assembles an argument list, and issues a single subprocess.run call to the
external encoder (ffmpeg).  We embed the script shallowly:

* the string constants become Lean String definitions with the source names;
* os.path.join is translated from CPython's posixpath.join;
* subprocess.run (invoked without check=True) is modelled by its documented
  semantics: it returns a CompletedProcess carrying the child's exit status
  (negative signal number when killed) for every spawned process, whatever
  the exit status, and raises FileNotFoundError only when the executable
  cannot be found;
* the script body becomes a list of statements interpreted into an event
  trace plus an optional uncaught exception.
-/

/-- Boolean prefix test on strings, via the underlying character lists
(the semantics of Python's str.startswith for a plain prefix). -/
def strStartsWith (s t : String) : Bool :=
  t.data.isPrefixOf s.data

/-- Boolean suffix test on strings, via the underlying character lists
(the semantics of Python's str.endswith for a plain suffix). -/
def strEndsWith (s t : String) : Bool :=
  t.data.isSuffixOf s.data

/-- Translation of CPython's posixpath.join restricted to two arguments,
exactly as the library implements it: an absolute second component replaces
the first; otherwise the components are concatenated, inserting a slash
only when the first component is nonempty and does not already end in one. -/
def osPathJoin (a b : String) : String :=
  if strStartsWith b "/" then b
  else if (a == "") || strEndsWith a "/" then a ++ b
  else a ++ "/" ++ b

/-- Source constant: modelname = "tunnel_of_doom". -/
def modelname : String := "tunnel_of_doom"

/-- Source constant: frames_dir = "./outputs/hw4/tunnel_of_doom/". -/
def frames_dir : String := "./outputs/hw4/tunnel_of_doom/"

/-- Source constant: output_video = f"{modelname}.mp4". -/
def output_video : String := modelname ++ ".mp4"

/-- Source constant: frame_pattern = f"{modelname}_%03d.png". -/
def frame_pattern : String := modelname ++ "_%03d.png"

/-- The argument list the script hands to subprocess.run, element for
element as written in the source. -/
def scriptArgv : List String :=
  ["ffmpeg", "-y", "-framerate", "30",
   "-i", osPathJoin frames_dir frame_pattern,
   "-c:v", "libx264", "-pix_fmt", "yuv420p",
   output_video]

/-- The specification's EncodeJob record: the four parameters that vary
between jobs (the source script is one literal instance of it).
frame_rate is kept as the argv string, exactly as the source passes it. -/
structure EncodeJob where
  source_directory : String
  frame_pattern : String
  frame_rate : String
  output_path : String

/-- The source's argument template with the four job parameters abstracted:
every element other than the four parameters is the literal the script
writes, in the script's order. -/
def buildArgs (j : EncodeJob) : List String :=
  ["ffmpeg", "-y", "-framerate", j.frame_rate,
   "-i", osPathJoin j.source_directory j.frame_pattern,
   "-c:v", "libx264", "-pix_fmt", "yuv420p",
   j.output_path]

/-- The one EncodeJob the source script instantiates. -/
def scriptJob : EncodeJob :=
  ⟨frames_dir, frame_pattern, "30", output_video⟩

/-- Possible fates of the one external process invocation: it ran and
exited with a status code, it was killed by a signal, or the executable
could not be found at all. -/
inductive ProcOutcome
  | exited (code : Int)
  | signaled (sig : Nat)
  | notFound
deriving DecidableEq

/-- The Python exceptions the script can let escape. -/
inductive PyExc
  | fileNotFoundError
deriving DecidableEq

/-- The value subprocess.run returns: the argument list and the child's
exit status (returncode). -/
structure CompletedProcess where
  args : List String
  returncode : Int
deriving DecidableEq

/-- Semantics of subprocess.run as the script calls it (no check=True):
a spawned process always yields a CompletedProcess — returncode is the
exit status, or minus the signal number when the child was killed — and
no exception is raised for a non-zero status; only a missing executable
raises FileNotFoundError. -/
def subprocessRun (o : ProcOutcome) (argv : List String) :
    Except PyExc CompletedProcess :=
  match o with
  | ProcOutcome.notFound => Except.error PyExc.fileNotFoundError
  | ProcOutcome.exited c => Except.ok ⟨argv, c⟩
  | ProcOutcome.signaled s => Except.ok ⟨argv, -(s : Int)⟩

/-- Observable side effects a statement of the script could perform. -/
inductive Event
  | spawn (argv : List String)
  | fsRead (path : String)
  | fsWrite (path : String)
deriving DecidableEq

/-- The script's statements in source order: four pure string assignments
(import statements and comments elided) followed by the single
subprocess.run call. -/
inductive Stmt
  | assign (name : String) (value : String)
  | runProcess (argv : List String)

/-- render_video.py, statement by statement. -/
def scriptStmts : List Stmt :=
  [Stmt.assign "modelname" modelname,
   Stmt.assign "frames_dir" frames_dir,
   Stmt.assign "output_video" output_video,
   Stmt.assign "frame_pattern" frame_pattern,
   Stmt.runProcess scriptArgv]

/-- Interpreter: executes statements in order under a fixed process
outcome, recording the event trace and stopping at the first uncaught
exception.  An assignment is pure and silent; a process invocation always
records its spawn attempt, and raises exactly when subprocess.run does. -/
def runStmts (o : ProcOutcome) : List Stmt → List Event × Option PyExc
  | [] => ([], none)
  | Stmt.assign _ _ :: rest => runStmts o rest
  | Stmt.runProcess argv :: rest =>
    match subprocessRun o argv with
    | Except.ok _ =>
      let r := runStmts o rest
      (Event.spawn argv :: r.1, r.2)
    | Except.error e => ([Event.spawn argv], some e)

/-- Full run of the script under a given process outcome. -/
def scriptRun (o : ProcOutcome) : List Event × Option PyExc :=
  runStmts o scriptStmts

/-- The event trace of a run. -/
def scriptTrace (o : ProcOutcome) : List Event :=
  (scriptRun o).1

/-- The script's overall result: an uncaught exception, or normal
completion (the script never inspects the CompletedProcess it gets back,
so normal completion carries no information). -/
def scriptResult (o : ProcOutcome) : Except PyExc Unit :=
  match (scriptRun o).2 with
  | some e => Except.error e
  | none => Except.ok ()

/-- Modelled from the spec: the external encoder (ffmpeg) is not part of
this repository; per the spec, a frame-pattern mismatch "yields zero
matched frames (encoder-reported failure)": with zero matching frames the
encoder process runs but exits with a non-zero status, and with at least
one frame it exits with status zero. -/
def encoderOutcome (matchingFrames : Nat) : ProcOutcome :=
  if matchingFrames = 0 then ProcOutcome.exited 1 else ProcOutcome.exited 0

/-- Modelled from the spec: the external encoder produces a valid output
file exactly when it succeeds, i.e. when at least one frame matched. -/
def encoderWritesOutput (matchingFrames : Nat) : Bool :=
  decide (matchingFrames ≠ 0)

/-- One encode call over an explicit filesystem (paths to optional file
contents): the external encoder, modelled as a deterministic function of
the argument list and the visible filesystem, writes its output at the
job's output path; nothing else changes.  The argument list is the one the
script builds. -/
def runEncode (enc : List String → (String → Option (List Nat)) → List Nat)
    (j : EncodeJob) (fs : String → Option (List Nat)) :
    String → Option (List Nat) :=
  fun q => if q = j.output_path then some (enc (buildArgs j) fs) else fs q

/-- Whether an event is a process spawn. -/
def isSpawn : Event → Bool
  | Event.spawn _ => true
  | _ => false

/-- Whether an event is a filesystem write. -/
def isFsWrite : Event → Bool
  | Event.fsWrite _ => true
  | _ => false

/-- Whether an event is a filesystem read. -/
def isFsRead : Event → Bool
  | Event.fsRead _ => true
  | _ => false

/-- Whether a character list contains two consecutive path separators. -/
def hasDupSep : List Char → Bool
  | [] => false
  | [_] => false
  | a :: b :: rest => (a == '/' && b == '/') || hasDupSep (b :: rest)

/-- Helper: osPathJoin always keeps the second component as a literal
suffix of its result, and the prefix is the first component, the first
component plus a separator, or empty (absolute second component). -/
theorem osPathJoin_keeps_second (a b : String) :
    ∃ pre : String, osPathJoin a b = pre ++ b ∧
      (pre = a ∨ pre = a ++ "/" ∨ pre = "") := by
  unfold osPathJoin
  split
  · exact ⟨"", (String.empty_append b).symm, Or.inr (Or.inr rfl)⟩
  · split
    · exact ⟨a, rfl, Or.inl rfl⟩
    · exact ⟨a ++ "/", rfl, Or.inr (Or.inl rfl)⟩

/-- Claim C1 counterexample: with the external encoder exiting with the
non-zero status 1, the script still completes normally — the non-zero exit
status is silently suppressed, so the result is not "success iff the
process exited with status zero" and no EncodeError is surfaced. -/
theorem c1_counterexample :
    scriptResult (ProcOutcome.exited 1) = Except.ok () ∧
    (scriptResult (ProcOutcome.exited 1)).isOk = true :=
  ⟨rfl, rfl⟩

/-- Claim C1 (amended): the script completes normally exactly when the
external process could be spawned at all; the exit status — including a
negative returncode when the process is killed — is recorded in the
CompletedProcess that subprocess.run returns but never inspected, so
non-zero exits and kills are silently suppressed, and the only error that
surfaces is a FileNotFoundError when the encoder executable is missing. -/
theorem c1_exit_status_ignored (o : ProcOutcome) :
    ((scriptResult o).isOk = true ↔ o ≠ ProcOutcome.notFound) ∧
    ((scriptRun o).2 = some PyExc.fileNotFoundError ↔ o = ProcOutcome.notFound) ∧
    (∀ c : Int, o = ProcOutcome.exited c →
      subprocessRun o scriptArgv = Except.ok ⟨scriptArgv, c⟩) := by
  cases o <;>
    simp [scriptResult, scriptRun, runStmts, scriptStmts, subprocessRun,
      Except.isOk, Except.toBool]

/-- Claim C1 witness: concrete instance of the amended theorem. -/
theorem c1_exit_status_ignored_witness :
    (scriptResult (ProcOutcome.exited 0)).isOk = true :=
  (c1_exit_status_ignored (ProcOutcome.exited 0)).1.mpr (by decide)

/-- Claim C2: the argument sequence is exactly
encoder, -y, -framerate, rate, -i, dir-joined-pattern, -c:v, libx264,
-pix_fmt, yuv420p, output — in that order; the script's one job uses the
fixed rate 30, and across jobs every position other than the rate, the
input path and the output path holds the identical literal. -/
theorem c2_arg_shape :
    scriptArgv = buildArgs scriptJob ∧
    scriptJob.frame_rate = "30" ∧
    (∀ j : EncodeJob, buildArgs j =
      ["ffmpeg", "-y", "-framerate", j.frame_rate,
       "-i", osPathJoin j.source_directory j.frame_pattern,
       "-c:v", "libx264", "-pix_fmt", "yuv420p", j.output_path] ∧
      (buildArgs j).length = 11) ∧
    (∀ j j' : EncodeJob, ∀ i : Nat, i < 11 → i ≠ 3 → i ≠ 5 → i ≠ 10 →
      (buildArgs j).get? i = (buildArgs j').get? i) := by
  refine ⟨rfl, rfl, fun j => ⟨rfl, rfl⟩, ?_⟩
  intro j j' i hi h3 h5 h10
  interval_cases i <;> first | rfl | omega

/-- Claim C2 witness: concrete instance of the cross-job invariance. -/
theorem c2_arg_shape_witness :
    (buildArgs scriptJob).get? 7 = (buildArgs ⟨"d", "p", "60", "o"⟩).get? 7 :=
  c2_arg_shape.2.2.2 scriptJob ⟨"d", "p", "60", "o"⟩ 7
    (by decide) (by decide) (by decide) (by decide)

/-- Claim C3: each of the four job parameters appears literally at its
template position: the rate at index 3, the output path at index 10, and
the input argument at index 5 carries the frame pattern as a literal,
unaltered suffix (so its zero-padding width and extension are untouched),
preceded by the source directory (with a separator added only when the
directory does not supply one, or by nothing when the pattern is an
absolute path). -/
theorem c3_literal_substitution (j : EncodeJob) :
    (buildArgs j).get? 3 = some j.frame_rate ∧
    (buildArgs j).get? 10 = some j.output_path ∧
    ∃ pre : String,
      (buildArgs j).get? 5 = some (pre ++ j.frame_pattern) ∧
      (pre = j.source_directory ∨ pre = j.source_directory ++ "/" ∨ pre = "") := by
  refine ⟨rfl, rfl, ?_⟩
  obtain ⟨pre, hpre, hcase⟩ := osPathJoin_keeps_second j.source_directory j.frame_pattern
  exact ⟨pre, by simp [buildArgs, hpre], hcase⟩

/-- Claim C4 counterexample: with a source directory matching zero frames,
the modelled encoder exits non-zero and writes no valid output — yet the
script completes normally, so encode does not return or raise an error
there, contrary to the claim. -/
theorem c4_counterexample :
    (scriptResult (encoderOutcome 0)).isOk = true ∧
    encoderWritesOutput 0 = false :=
  ⟨rfl, by decide⟩

/-- Claim C4 (amended): with zero matching frames the external encoder
exits with the non-zero status 1 and produces no valid output file, but
the script itself completes without raising; the failure is recorded only
in the returncode of the CompletedProcess, which the script discards. -/
theorem c4_zero_frames :
    encoderOutcome 0 = ProcOutcome.exited 1 ∧
    encoderWritesOutput 0 = false ∧
    subprocessRun (encoderOutcome 0) scriptArgv = Except.ok ⟨scriptArgv, 1⟩ ∧
    scriptResult (encoderOutcome 0) = Except.ok () :=
  ⟨by decide, by decide, rfl, rfl⟩

/-- Claim C5: the overwrite flag -y sits at index 1 of the argument
sequence of every job, whatever its four parameters (the sequence is a
pure function of those parameters alone, so no filesystem state can
remove it), and in particular of the script's own invocation. -/
theorem c5_overwrite_flag :
    (∀ j : EncodeJob, (buildArgs j).get? 1 = some "-y" ∧ "-y" ∈ buildArgs j) ∧
    scriptArgv.get? 1 = some "-y" ∧ "-y" ∈ scriptArgv := by
  refine ⟨fun j => ⟨rfl, ?_⟩, rfl, ?_⟩ <;> simp [buildArgs, scriptArgv]

/-- Claim C6: when the encoder executable cannot be found, subprocess.run
raises, the script propagates the exception, and the run does not complete
successfully — the error class is Python's FileNotFoundError, playing the
role the specification names MissingEncoderError. -/
theorem c6_missing_encoder :
    scriptResult ProcOutcome.notFound = Except.error PyExc.fileNotFoundError ∧
    (scriptResult ProcOutcome.notFound).isOk = false :=
  ⟨rfl, rfl⟩

/-- Claim C7: under every outcome of the external process — success,
non-zero exit, kill, or spawn failure — the script's trace contains exactly
one spawn event and no direct filesystem write: one invocation, no retry,
no second attempt on failure, and the output file is never written by the
script itself. -/
theorem c7_single_spawn (o : ProcOutcome) :
    (scriptTrace o).countP isSpawn = 1 ∧
    (scriptTrace o).countP isFsWrite = 0 := by
  cases o <;> exact ⟨rfl, rfl⟩

/-- Claim C8: one encode call writes the encoder's deterministic output at
the job's output path and changes nothing else; as long as the encoder
reads only the input frames (and the output path is not an input frame),
running the identical job twice in succession leaves the very filesystem
the first run produced — both calls use the identical argument list
buildArgs j and write identical bytes. -/
theorem c8_idempotent (isFrame : String → Prop)
    (enc : List String → (String → Option (List Nat)) → List Nat)
    (j : EncodeJob) (fs : String → Option (List Nat))
    (henc : ∀ fs1 fs2 : String → Option (List Nat),
      (∀ q, isFrame q → fs1 q = fs2 q) →
      enc (buildArgs j) fs1 = enc (buildArgs j) fs2)
    (hout : ¬ isFrame j.output_path) :
    runEncode enc j (runEncode enc j fs) = runEncode enc j fs := by
  funext q
  by_cases hq : q = j.output_path
  · have hview : ∀ r, isFrame r → runEncode enc j fs r = fs r := by
      intro r hr
      have hne : r ≠ j.output_path := fun h => hout (h ▸ hr)
      simp [runEncode, hne]
    simp [runEncode, hq, henc _ _ hview]
  · simp [runEncode, hq]

/-- Claim C8 witness: concrete instance of the idempotence theorem. -/
theorem c8_idempotent_witness :
    runEncode (fun _ _ => []) scriptJob
        (runEncode (fun _ _ => []) scriptJob (fun _ => none)) =
      runEncode (fun _ _ => []) scriptJob (fun _ => none) :=
  c8_idempotent (fun _ => False) (fun _ _ => []) scriptJob (fun _ => none)
    (fun _ _ _ => rfl) (fun h => h)

/-- Claim C9: under every outcome, the script's whole effect trace is the
single spawn of the assembled argument list — in particular no filesystem
read or write precedes (or follows) the invocation, so no precondition
(directory existence, matching frames, encoder presence) is checked. -/
theorem c9_no_validation (o : ProcOutcome) :
    scriptTrace o = [Event.spawn scriptArgv] ∧
    (scriptTrace o).countP isFsRead = 0 := by
  cases o <;> exact ⟨rfl, rfl⟩

/-- Claim C10: the input argument is os.path.join of the directory and the
pattern; for the script's hard-coded directory (which ends in a slash) the
join inserts nothing, the result has no doubled separator, and in general
a directory already ending in a separator yields dir ++ pattern while one
without yields dir ++ "/" ++ pattern — exactly one separator either way
(for a relative pattern). -/
theorem c10_path_join :
    osPathJoin frames_dir frame_pattern = frames_dir ++ frame_pattern ∧
    hasDupSep (osPathJoin frames_dir frame_pattern).data = false ∧
    (∀ d p : String, strStartsWith p "/" = false → strEndsWith d "/" = true →
      osPathJoin d p = d ++ p) ∧
    (∀ d p : String, (d == "") = false → strStartsWith p "/" = false →
      strEndsWith d "/" = false → osPathJoin d p = d ++ "/" ++ p) := by
  refine ⟨by decide, by decide, ?_, ?_⟩
  · intro d p h1 h2
    simp [osPathJoin, h1, h2]
  · intro d p h0 h1 h2
    simp [osPathJoin, h0, h1, h2]

/-- Claim C10 witness: concrete instances of the join behaviour. -/
theorem c10_path_join_witness :
    osPathJoin "a" "b" = "a" ++ "/" ++ "b" :=
  c10_path_join.2.2.2 "a" "b" (by decide) (by decide) (by decide)
